import Mathlib

/-!
Verification of `torch/distributed/rpc.py`: a minimal point-to-point RPC layer
over a process-group transport.

The module keeps a process-wide agent slot `_agent` (initially `None`) and
exposes `init_rpc`, `join_rpc`, `sync_rpc`, `get_id` and `rpc`. We embed the
module state as `RpcState` (the agent slot), Python exceptions as values of
`PyErr` carried in `Except`, and each top-level function as a state-passing
Lean function translated clause by clause from the Python source.

Parts of the repository that `rpc.py` calls but that are not part of this
module (`ProcessGroupAgent`, `invoke_rpc`, `torch.jit._find_builtin`,
`_get_default_group`) are modelled from the spec; each such definition says so
in its doc comment.
-/

namespace TorchRpc

/-- An opaque Python value appearing in RPC argument lists and results. -/
inductive PyVal where
  | vnone : PyVal
  | vint (n : Int) : PyVal
  | vstr (s : String) : PyVal
  deriving DecidableEq, Repr

/-- A Python exception as raised by the module. Every `raise` in
`rpc.py` builds a `RuntimeError` with a tuple of message arguments, embedded
here as `runtimeError`. The `unknownWorker` constructor embeds the
`UnknownWorker` failure of the worker directory, whose code is not part of
this module (see `Agent.get_worker_id`). -/
inductive PyErr where
  | runtimeError (args : List String) : PyErr
  | unknownWorker (name : String) : PyErr
  deriving DecidableEq, Repr

/-- The error raised by `_check_initialized` (rpc.py line 14). -/
def notInitializedError : PyErr :=
  .runtimeError ["RPC has not been initialized. Call init_rpc(name) first."]

/-- The error raised by `init_rpc` on double initialization (rpc.py line 61). -/
def alreadyInitializedError : PyErr :=
  .runtimeError ["RPC is already initialized"]

/-- The error raised by `rpc` when `torch.jit._find_builtin` cannot resolve
`func` (rpc.py line 143): `RuntimeError("unknown builtin function %s." % func)`. -/
def unknownFunctionError (func : String) : PyErr :=
  .runtimeError ["unknown builtin function " ++ func ++ "."]

/-- The error raised by `init_rpc` for an unknown backend (rpc.py line 68):
`RuntimeError("Unrecognized RPC backend ", backend)` — note the two arguments. -/
def unrecognizedBackendError (backend : String) : PyErr :=
  .runtimeError ["Unrecognized RPC backend ", backend]

/-- Whether an error is Python's generic `RuntimeError` (distinguishable only
by its message), as opposed to a dedicated error type. -/
def PyErr.isGenericRuntime : PyErr → Bool
  | .runtimeError _ => true
  | _ => false

/-- Modelled from the spec: the WorkerDirectory (§4.1) lives inside
`ProcessGroupAgent`, which is not under the module. It maps each worker name
to its stable id; here a name's id is its rank, i.e. its position in the
group-membership list. -/
structure WorkerDirectory where
  names : List String
  deriving DecidableEq, Repr

/-- Modelled from the spec: `resolve(name) -> WorkerId`, `none` when no worker
with that name was registered at group-join time. -/
def WorkerDirectory.resolve (d : WorkerDirectory) (name : String) : Option Nat :=
  d.names.findIdx? (fun m => m == name)

/-- Modelled from the spec (§3): an invocation request handed to the
transport — caller and callee WorkerIds, the CallId, the qualified function
name and the arguments. -/
structure InvocationRequest where
  caller : Nat
  callee : Nat
  callId : Nat
  qualifiedName : String
  args : List PyVal
  kwargs : List (String × PyVal)
  deriving DecidableEq, Repr

/-- Modelled from the spec: the `FutureMessage` returned by `invoke_rpc`
(the InvocationFuture of §4.3), correlated with its call by CallId. -/
structure FutureMessage where
  callId : Nat
  request : InvocationRequest
  deriving DecidableEq, Repr

/-- Modelled from the spec: the RPC agent (§4.4/`ProcessGroupAgent`), which is
not under the module. It is bound to one WorkerDirectory, knows its own
identity, allocates CallIds monotonically, and records every request handed
to the transport in `sent`. -/
structure Agent where
  name : String
  directory : WorkerDirectory
  selfId : Nat
  nextCallId : Nat
  sent : List InvocationRequest
  deriving DecidableEq, Repr

/-- The external collaborators of §6: the function registry mapping a callable
handle to its transport-stable qualified name, the backend's current group
membership (`_get_default_group`), and the remote-execution outcome of a
request (opaque to this layer, used only to give `FutureMessage.wait` a
value). -/
structure Env where
  registry : List (String × String)
  defaultGroup : List String
  execute : InvocationRequest → PyVal

/-- Modelled from the spec: `torch.jit._find_builtin(func)` — the external
function registry of §6, `resolve_qualified_name(callable) -> string | NotFound`. -/
def findBuiltin (env : Env) (func : String) : Option String :=
  env.registry.lookup func

/-- Modelled from the spec: `ProcessGroupAgent(name, group)` constructs the
agent from the backend's current group membership (§4.5); the local id is the
worker's position in the group. -/
def mkProcessGroupAgent (name : String) (group : List String) : Agent :=
  { name := name
    directory := { names := group }
    selfId := (WorkerDirectory.resolve { names := group } name).getD 0
    nextCallId := 0
    sent := [] }

/-- Modelled from the spec: `agent.get_worker_id(name)` resolves a worker name
through the directory, failing with `UnknownWorker` for an unrecognized name
(§4.1, §4.5). -/
def Agent.get_worker_id (a : Agent) (name : String) : Except PyErr Nat :=
  match a.directory.resolve name with
  | some i => .ok i
  | none => .error (.unknownWorker name)

/-- Modelled from the spec: `agent.get_id()` returns the local identity (§4.1). -/
def Agent.get_id (a : Agent) : Nat :=
  a.selfId

/-- Modelled from the spec: `agent.sync()` drains pending calls and enters the
group barrier (§4.4). The barrier has no locally observable effect on the
agent in this embedding. -/
def Agent.sync (a : Agent) : Agent :=
  a

/-- Modelled from the spec: `invoke_rpc(agent, to, qualified_name, *args,
**kwargs)` — the dispatch primitive (§4.4): allocate a fresh CallId, build the
immutable InvocationRequest, hand it to the transport (append to `sent`), and
return the future. -/
def invoke_rpc (a : Agent) (toId : Nat) (qualifiedName : String)
    (args : List PyVal) (kwargs : List (String × PyVal)) :
    FutureMessage × Agent :=
  let req : InvocationRequest :=
    { caller := a.selfId
      callee := toId
      callId := a.nextCallId
      qualifiedName := qualifiedName
      args := args
      kwargs := kwargs }
  ({ callId := a.nextCallId, request := req },
   { a with nextCallId := a.nextCallId + 1, sent := a.sent ++ [req] })

/-- Modelled from the spec: `fut.wait()` blocks until the future is terminal
and returns the result of running the function remotely (§4.3); the outcome of
one request is the environment's `execute` oracle applied to it. -/
def FutureMessage.wait (env : Env) (f : FutureMessage) : PyVal :=
  env.execute f.request

/-- The module-level state of `rpc.py`: the process-wide agent slot
`_agent = None` (line 9). -/
structure RpcState where
  agent : Option Agent
  deriving DecidableEq, Repr

/-- Embeds `_check_initialized` (lines 12-15): raise if `_agent is None`. -/
def _check_initialized (s : RpcState) : Except PyErr Unit :=
  match s.agent with
  | none => .error notInitializedError
  | some _ => .ok ()

/-- Embeds `join_rpc` (lines 18-28): if `_agent` is truthy (an agent object
always is), join it and reset the slot to `None`; otherwise do nothing. -/
def join_rpc (s : RpcState) : RpcState :=
  match s.agent with
  | some _ => { agent := none }
  | none => s

/-- Embeds `sync_rpc` (lines 31-39): `_check_initialized()` — i.e. fail when
the slot is `None` — then `_agent.sync()`. -/
def sync_rpc (s : RpcState) : Except PyErr Unit × RpcState :=
  match s.agent with
  | none => (.error notInitializedError, s)
  | some a => (.ok (), { agent := some a.sync })

/-- Embeds `init_rpc(name, backend='pg')` (lines 43-68): fail if the slot is
occupied; for backend `"pg"` build a `ProcessGroupAgent` on the default
group; otherwise raise the unrecognized-backend error. -/
def init_rpc (env : Env) (s : RpcState) (name : String) (backend : String) :
    Except PyErr Unit × RpcState :=
  match s.agent with
  | some _ => (.error alreadyInitializedError, s)
  | none =>
    if backend == "pg" then
      (.ok (), { agent := some (mkProcessGroupAgent name env.defaultGroup) })
    else
      (.error (unrecognizedBackendError backend), s)

/-- Python truthiness of the optional `workerName` string argument: `None` and
`""` are falsy, every other string is truthy. -/
def pyTruthyName : Option String → Bool
  | none => false
  | some s => !(s == "")

/-- Embeds `get_id(workerName=None)` (lines 71-76): `_check_initialized()`,
then `_agent.get_worker_id(workerName)` when `workerName` is truthy, else
`_agent.get_id()`. It reads the state without modifying it. -/
def get_id (s : RpcState) (workerName : Option String) : Except PyErr Nat :=
  match s.agent with
  | none => .error notInitializedError
  | some a =>
    if pyTruthyName workerName then a.get_worker_id (workerName.getD "")
    else .ok a.get_id

/-- The destination argument `to` of `rpc`: an integer id or a worker name
(`isinstance(to, str)` distinguishes them, line 147). -/
inductive Dest where
  | byId (i : Nat) : Dest
  | byName (n : String) : Dest
  deriving DecidableEq, Repr

/-- The return of `rpc`: the result value for a blocking call, the future for
an asynchronous one. -/
inductive RpcRet where
  | value (v : PyVal) : RpcRet
  | future (f : FutureMessage) : RpcRet
  deriving DecidableEq, Repr

/-- Embeds `args = args if args else ()` (line 145): `None` and the empty
tuple are falsy and normalize to the empty tuple. -/
def normalizeArgs (args : Option (List PyVal)) : List PyVal :=
  match args with
  | some l => if l.isEmpty then [] else l
  | none => []

/-- Embeds `kwargs = kwargs if kwargs else {}` (line 146). -/
def normalizeKwargs (kwargs : Option (List (String × PyVal))) :
    List (String × PyVal) :=
  match kwargs with
  | some l => if l.isEmpty then [] else l
  | none => []

/-- Embeds `rpc(to, func, args=None, kwargs=None, async_call=False)`
(lines 79-154): `_check_initialized()`; resolve `func` through the registry,
raising the unknown-builtin error on failure; normalize `args`/`kwargs`;
resolve a string destination through the agent; call `invoke_rpc`; return the
future for an async call, `fut.wait()` otherwise. -/
def rpc (env : Env) (s : RpcState) (dst : Dest) (func : String)
    (args : Option (List PyVal)) (kwargs : Option (List (String × PyVal)))
    (async_call : Bool) : Except PyErr RpcRet × RpcState :=
  match s.agent with
  | none => (.error notInitializedError, s)
  | some a =>
    match findBuiltin env func with
    | none => (.error (unknownFunctionError func), s)
    | some qualifiedName =>
      let args1 := normalizeArgs args
      let kwargs1 := normalizeKwargs kwargs
      let toRes : Except PyErr Nat :=
        match dst with
        | .byName n => a.get_worker_id n
        | .byId i => .ok i
      match toRes with
      | .error e => (.error e, s)
      | .ok toId =>
        let fa := invoke_rpc a toId qualifiedName args1 kwargs1
        let s1 : RpcState := { agent := some fa.2 }
        if async_call then (.ok (.future fa.1), s1)
        else (.ok (.value (fa.1.wait env)), s1)

/-- One operation of the public surface of the module. -/
inductive Op where
  | opInit (name : String) (backend : String) : Op
  | opCall (dst : Dest) (func : String) (args : Option (List PyVal))
      (kwargs : Option (List (String × PyVal))) (async_call : Bool) : Op
  | opSync : Op
  | opIdentity (workerName : Option String) : Op
  | opTeardown : Op

/-- The state transition of one public operation (`get_id` reads the state
without modifying it, so `opIdentity` leaves it unchanged). -/
def step (env : Env) (s : RpcState) : Op → RpcState
  | .opInit n b => (init_rpc env s n b).2
  | .opCall dst f a k ac => (rpc env s dst f a k ac).2
  | .opSync => (sync_rpc s).2
  | .opIdentity _ => s
  | .opTeardown => join_rpc s

/-- A concrete environment used by the closed witness theorems: two workers,
one registered builtin. -/
def envW : Env :=
  { registry := [("add", "aten::add")]
    defaultGroup := ["worker0", "worker1"]
    execute := fun _ => PyVal.vint 5 }

/-- The concrete agent `init_rpc` builds for `"worker0"` in `envW`. -/
def agentW : Agent :=
  mkProcessGroupAgent "worker0" ["worker0", "worker1"]

/-- C1: in every session state with no active agent — before `init_rpc` was
ever called or after `join_rpc` discarded the singleton — each RPC operation
that requires an active session (`rpc`, `sync_rpc`, `get_id`) fails with the
not-initialized `RuntimeError` and leaves the session state unchanged
(`get_id` never modifies the state, so its result alone settles it). -/
theorem uninitialized_ops_fail (env : Env) (s : RpcState) (h : s.agent = none)
    (dst : Dest) (func : String) (args : Option (List PyVal))
    (kwargs : Option (List (String × PyVal))) (async_call : Bool)
    (workerName : Option String) :
    rpc env s dst func args kwargs async_call = (.error notInitializedError, s) ∧
    sync_rpc s = (.error notInitializedError, s) ∧
    get_id s workerName = .error notInitializedError := by
  obtain ⟨ag⟩ := s
  cases ag with
  | none => exact ⟨rfl, rfl, rfl⟩
  | some a => exact absurd h (by simp)

/-- C1 witness: the three operations at the concrete uninitialized state. -/
theorem uninitialized_ops_fail_w :
    rpc envW ⟨none⟩ (Dest.byId 1) "add" none none false =
      (.error notInitializedError, ⟨none⟩) ∧
    sync_rpc ⟨none⟩ = (.error notInitializedError, ⟨none⟩) ∧
    get_id ⟨none⟩ none = .error notInitializedError :=
  uninitialized_ops_fail envW ⟨none⟩ rfl (Dest.byId 1) "add" none none false none

/-- C2: when an agent already exists, `init_rpc` fails with the
already-initialized `RuntimeError` for every name and every backend (even an
unrecognized one, since the slot check precedes the backend check) and leaves
the existing agent untouched; when the slot is empty and the backend is the
recognized `"pg"`, it builds the `ProcessGroupAgent` on the backend's current
group and occupies the slot. -/
theorem init_rpc_lifecycle (env : Env) (s : RpcState) (name backend : String) :
    (∀ a, s.agent = some a →
      init_rpc env s name backend = (.error alreadyInitializedError, s)) ∧
    (s.agent = none →
      init_rpc env s name "pg" =
        (.ok (), ⟨some (mkProcessGroupAgent name env.defaultGroup)⟩)) := by
  obtain ⟨ag⟩ := s
  cases ag with
  | none =>
    refine ⟨fun a ha => absurd ha (by simp), fun _ => ?_⟩
    simp [init_rpc]
  | some a =>
    exact ⟨fun _ _ => rfl, fun h => absurd h (by simp)⟩

/-- C2 witness: double initialization rejected (even with a bad backend), and
a fresh initialization building the concrete agent. -/
theorem init_rpc_lifecycle_w :
    init_rpc envW ⟨some agentW⟩ "x" "foo" =
      (.error alreadyInitializedError, ⟨some agentW⟩) ∧
    init_rpc envW ⟨none⟩ "worker0" "pg" =
      (.ok (), ⟨some (mkProcessGroupAgent "worker0" envW.defaultGroup)⟩) :=
  ⟨(init_rpc_lifecycle envW ⟨some agentW⟩ "x" "foo").1 agentW rfl,
   (init_rpc_lifecycle envW ⟨none⟩ "worker0" "pg").2 rfl⟩

/-- C7: `join_rpc` is an idempotent no-op on an empty slot — it returns with
the state unchanged, so two consecutive calls equal one — and when an agent
is active it joins the agent and empties the slot. -/
theorem join_rpc_idempotent (s : RpcState) :
    (s.agent = none → join_rpc s = s) ∧
    join_rpc (join_rpc s) = join_rpc s ∧
    (∀ a, s.agent = some a → join_rpc s = ⟨none⟩) := by
  obtain ⟨ag⟩ := s
  cases ag with
  | none => exact ⟨fun _ => rfl, rfl, fun a ha => absurd ha (by simp)⟩
  | some a => exact ⟨fun h => absurd h (by simp), rfl, fun _ _ => rfl⟩

/-- C7 witness: `join_rpc` at the empty state and at the concrete active
state. -/
theorem join_rpc_idempotent_w :
    (join_rpc ⟨none⟩ = (⟨none⟩ : RpcState)) ∧
    join_rpc ⟨some agentW⟩ = (⟨none⟩ : RpcState) :=
  ⟨(join_rpc_idempotent ⟨none⟩).1 rfl,
   (join_rpc_idempotent ⟨some agentW⟩).2.2 agentW rfl⟩

/-- C8: in an active session, `get_id` returns the local worker's own id when
the name argument is absent or falsy (the empty string), and the directory's
id for the given name otherwise. -/
theorem get_id_resolution (s : RpcState) (a : Agent) (h : s.agent = some a) :
    get_id s none = .ok a.get_id ∧
    get_id s (some "") = .ok a.get_id ∧
    (∀ n, n ≠ "" → get_id s (some n) = a.get_worker_id n) := by
  obtain ⟨ag⟩ := s
  cases ag with
  | none => exact absurd h (by simp)
  | some b =>
    have hb : b = a := by simpa using h
    subst hb
    refine ⟨rfl, rfl, fun n hn => ?_⟩
    simp [get_id, pyTruthyName, hn]

/-- C8 witness: local identity and directory lookup on the concrete agent. -/
theorem get_id_resolution_w :
    get_id ⟨some agentW⟩ none = .ok agentW.get_id ∧
    get_id ⟨some agentW⟩ (some "worker1") = agentW.get_worker_id "worker1" :=
  ⟨(get_id_resolution ⟨some agentW⟩ agentW rfl).1,
   (get_id_resolution ⟨some agentW⟩ agentW rfl).2.2 "worker1" (by decide)⟩

/-- C3: the blocking call path is exactly the asynchronous call path followed
by a wait on the returned future: `rpc` with `async_call = false` returns
`fut.wait()` for the very future that `rpc` with `async_call = true` returns
immediately, with the identical resulting state; the two forms also fail
identically. -/
theorem rpc_blocking_eq_async_wait (env : Env) (s : RpcState) (dst : Dest)
    (func : String) (args : Option (List PyVal))
    (kwargs : Option (List (String × PyVal))) :
    rpc env s dst func args kwargs false =
      (match rpc env s dst func args kwargs true with
       | (.ok (.future f), s1) => (.ok (.value (f.wait env)), s1)
       | (.ok (.value v), s1) => (.ok (.value v), s1)
       | (.error e, s1) => (.error e, s1)) := by
  obtain ⟨ag⟩ := s
  cases ag with
  | none => rfl
  | some a =>
    cases hf : findBuiltin env func with
    | none => simp [rpc, hf]
    | some q =>
      cases dst with
      | byId i => simp [rpc, hf]
      | byName n =>
        cases hr : a.get_worker_id n with
        | error e => simp [rpc, hf, hr]
        | ok j => simp [rpc, hf, hr]

/-- C10: passing `args = None` is equivalent to passing the empty tuple, and
passing `kwargs = None` is equivalent to passing the empty dict — `rpc`
dispatches the identical invocation and returns the identical result in both
forms, for blocking and asynchronous calls alike. -/
theorem rpc_args_normalization (env : Env) (s : RpcState) (dst : Dest)
    (func : String) (args : Option (List PyVal))
    (kwargs : Option (List (String × PyVal))) (async_call : Bool) :
    rpc env s dst func none kwargs async_call =
      rpc env s dst func (some []) kwargs async_call ∧
    rpc env s dst func args none async_call =
      rpc env s dst func args (some []) async_call :=
  ⟨rfl, rfl⟩

/-- C5: in an active session with a resolvable function, a destination given
as a worker name is resolved through the directory before the invocation is
handed to the transport — an unregistered name fails with `UnknownWorker` and
the state (in particular the agent's list of sent requests) is unchanged, and
a registered name's resolved id is the callee of the dispatched request —
while an integer destination is passed through to the transport unresolved. -/
theorem rpc_dest_resolution (env : Env) (s : RpcState) (a : Agent)
    (ha : s.agent = some a) (func q : String)
    (hf : findBuiltin env func = some q) (args : Option (List PyVal))
    (kwargs : Option (List (String × PyVal))) (async_call : Bool) :
    (∀ n, a.directory.resolve n = none →
      rpc env s (.byName n) func args kwargs async_call =
        (.error (.unknownWorker n), s)) ∧
    (∀ n j, a.directory.resolve n = some j →
      (rpc env s (.byName n) func args kwargs async_call).2 =
        ⟨some (invoke_rpc a j q (normalizeArgs args) (normalizeKwargs kwargs)).2⟩) ∧
    (∀ i, (rpc env s (.byId i) func args kwargs async_call).2 =
      ⟨some (invoke_rpc a i q (normalizeArgs args) (normalizeKwargs kwargs)).2⟩) := by
  obtain ⟨ag⟩ := s
  cases ag with
  | none => exact absurd ha (by simp)
  | some b =>
    have hba : b = a := by simpa using ha
    subst hba
    refine ⟨fun n hn => ?_, fun n j hj => ?_, fun i => ?_⟩
    · simp [rpc, hf, Agent.get_worker_id, hn]
    · cases async_call <;> simp [rpc, hf, Agent.get_worker_id, hj]
    · cases async_call <;> simp [rpc, hf]

/-- C5 witness: on the concrete agent, the unregistered name `"workerC"`
fails with `UnknownWorker` leaving the state unchanged, the registered name
`"worker1"` dispatches to the resolved id 1, and the integer destination 7 is
passed through unresolved. -/
theorem rpc_dest_resolution_w :
    rpc envW ⟨some agentW⟩ (.byName "workerC") "add" none none false =
      (.error (.unknownWorker "workerC"), ⟨some agentW⟩) ∧
    (rpc envW ⟨some agentW⟩ (.byName "worker1") "add" none none false).2 =
      ⟨some (invoke_rpc agentW 1 "aten::add" [] []).2⟩ ∧
    (rpc envW ⟨some agentW⟩ (.byId 7) "add" none none false).2 =
      ⟨some (invoke_rpc agentW 7 "aten::add" [] []).2⟩ :=
  ⟨(rpc_dest_resolution envW ⟨some agentW⟩ agentW rfl "add" "aten::add" rfl
      none none false).1 "workerC" (by decide),
   (rpc_dest_resolution envW ⟨some agentW⟩ agentW rfl "add" "aten::add" rfl
      none none false).2.1 "worker1" 1 (by decide),
   (rpc_dest_resolution envW ⟨some agentW⟩ agentW rfl "add" "aten::add" rfl
      none none false).2.2 7⟩

/-- C6: in an active session, `rpc` resolves the function through the external
registry before any destination resolution or dispatch — an unresolvable
function fails with the unknown-builtin error for every destination (even a
name outside the directory) with the state, hence the transport, untouched —
and the not-initialized check precedes the function check: with no agent,
`rpc` fails with `NotInitialized` for every function, resolvable or not. -/
theorem rpc_func_resolution_order (env : Env) (s : RpcState) :
    (∀ a func, s.agent = some a → findBuiltin env func = none →
      ∀ dst args kwargs async_call,
        rpc env s dst func args kwargs async_call =
          (.error (unknownFunctionError func), s)) ∧
    (s.agent = none →
      ∀ func dst args kwargs async_call,
        rpc env s dst func args kwargs async_call =
          (.error notInitializedError, s)) := by
  obtain ⟨ag⟩ := s
  cases ag with
  | none =>
    exact ⟨fun a func ha => absurd ha (by simp),
           fun _ _ _ _ _ _ => rfl⟩
  | some b =>
    refine ⟨fun a func ha hf dst args kwargs ac => ?_,
            fun h => absurd h (by simp)⟩
    simp [rpc, hf]

/-- C6 witness: the unregistered function `"mul"` sent to the unregistered
worker name `"workerC"` fails with the unknown-builtin error (showing function
resolution precedes destination resolution), and on the empty state the same
call fails with `NotInitialized` (showing the initialization check comes
first). -/
theorem rpc_func_resolution_order_w :
    rpc envW ⟨some agentW⟩ (.byName "workerC") "mul" none none false =
      (.error (unknownFunctionError "mul"), ⟨some agentW⟩) ∧
    rpc envW ⟨none⟩ (.byName "workerC") "mul" none none false =
      (.error notInitializedError, ⟨none⟩) :=
  ⟨(rpc_func_resolution_order envW ⟨some agentW⟩).1 agentW "mul" rfl (by decide)
      (.byName "workerC") none none false,
   (rpc_func_resolution_order envW ⟨none⟩).2 rfl "mul" (.byName "workerC")
      none none false⟩

/-- Helper: `rpc` never changes whether the agent slot is occupied — on every
error path it returns the state unchanged, and on success it writes back the
updated agent. -/
theorem rpc_preserves_slot (env : Env) (s : RpcState) (dst : Dest)
    (func : String) (args : Option (List PyVal))
    (kwargs : Option (List (String × PyVal))) (async_call : Bool) :
    ((rpc env s dst func args kwargs async_call).2.agent = none ↔
      s.agent = none) := by
  obtain ⟨ag⟩ := s
  cases ag with
  | none => simp [rpc]
  | some a =>
    cases hf : findBuiltin env func with
    | none => simp [rpc, hf]
    | some q =>
      cases dst with
      | byId i => cases async_call <;> simp [rpc, hf]
      | byName n =>
        cases hr : a.get_worker_id n with
        | error e => simp [rpc, hf, hr]
        | ok j => cases async_call <;> simp [rpc, hf, hr]

/-- C4: the process-wide agent slot (an `Option`, so it is empty or holds
exactly one agent) is governed by the public surface as a whole: an operation
that turns the empty slot into an occupied one can only be `init_rpc`, and an
operation that empties an occupied slot can only be `join_rpc`; every other
operation preserves the slot's occupancy. -/
theorem agent_singleton_invariant (env : Env) (s : RpcState) (op : Op) :
    (s.agent = none → (step env s op).agent ≠ none →
      ∃ n b, op = Op.opInit n b) ∧
    (s.agent ≠ none → (step env s op).agent = none → op = Op.opTeardown) := by
  cases op with
  | opInit n b =>
    refine ⟨fun _ _ => ⟨n, b, rfl⟩, fun hs hafter => ?_⟩
    exfalso
    obtain ⟨ag⟩ := s
    cases ag with
    | none => exact hs rfl
    | some a => simp [step, init_rpc] at hafter
  | opCall dst f a k ac =>
    constructor
    · intro hnone hafter
      exact absurd ((rpc_preserves_slot env s dst f a k ac).mpr hnone) hafter
    · intro hs hafter
      exact absurd ((rpc_preserves_slot env s dst f a k ac).mp hafter) hs
  | opSync =>
    obtain ⟨ag⟩ := s
    cases ag with
    | none => exact ⟨fun _ h => absurd rfl h, fun hs _ => absurd rfl hs⟩
    | some a =>
      exact ⟨fun hnone _ => absurd hnone (by simp),
             fun _ hafter => absurd hafter (by simp [step, sync_rpc])⟩
  | opIdentity w =>
    exact ⟨fun hnone hafter => absurd hnone hafter,
           fun hs hafter => absurd hafter hs⟩
  | opTeardown =>
    refine ⟨fun hnone hafter => ?_, fun _ _ => rfl⟩
    exfalso
    obtain ⟨ag⟩ := s
    cases ag with
    | none => exact hafter (by simp [step, join_rpc])
    | some a => exact absurd hnone (by simp)

/-- C4 witness: initializing from the empty slot is the operation that
occupies it, and tearing down the occupied slot is the operation that empties
it. -/
theorem agent_singleton_invariant_w :
    (∃ n b, Op.opInit "worker0" "pg" = Op.opInit n b) ∧
    Op.opTeardown = Op.opTeardown :=
  ⟨(agent_singleton_invariant envW ⟨none⟩ (Op.opInit "worker0" "pg")).1 rfl
      (by simp [step, init_rpc, envW]),
   (agent_singleton_invariant envW ⟨some agentW⟩ Op.opTeardown).2 (by simp)
      (by simp [step, join_rpc])⟩

/-- C9 counterexample: on the empty state, rejecting the unrecognized backend
`"tensorpipe"` raises Python's generic `RuntimeError` — the very same
exception type every other failure of the module uses, distinguishable only by
its message — not a dedicated typed error, refuting the claim's "a typed
error rather than a generic runtime failure". -/
theorem init_rpc_unknown_backend_generic :
    (init_rpc envW ⟨none⟩ "worker0" "tensorpipe").1 =
      .error (PyErr.runtimeError ["Unrecognized RPC backend ", "tensorpipe"]) ∧
    PyErr.isGenericRuntime (unrecognizedBackendError "tensorpipe") = true :=
  ⟨rfl, rfl⟩

/-- C9 (amended): for every backend other than `"pg"`, `init_rpc` on an empty
slot rejects the unknown tag with the unrecognized-backend `RuntimeError`
(carrying the tag in its arguments, but of the same generic exception type as
the module's other failures), and no agent is created — the slot stays
empty. -/
theorem init_rpc_unknown_backend (env : Env) (s : RpcState)
    (name backend : String) (hs : s.agent = none) (hb : backend ≠ "pg") :
    init_rpc env s name backend =
      (.error (unrecognizedBackendError backend), s) ∧
    (init_rpc env s name backend).2.agent = none := by
  obtain ⟨ag⟩ := s
  cases ag with
  | none =>
    have h1 : init_rpc env ⟨none⟩ name backend =
        (.error (unrecognizedBackendError backend), ⟨none⟩) := by
      simp [init_rpc, hb]
    exact ⟨h1, by simp [h1]⟩
  | some a => exact absurd hs (by simp)

/-- C9 witness: the concrete rejection of backend `"tensorpipe"` leaves the
slot empty. -/
theorem init_rpc_unknown_backend_w :
    init_rpc envW ⟨none⟩ "worker0" "tensorpipe" =
      (.error (unrecognizedBackendError "tensorpipe"), ⟨none⟩) ∧
    (init_rpc envW ⟨none⟩ "worker0" "tensorpipe").2.agent = none :=
  init_rpc_unknown_backend envW ⟨none⟩ "worker0" "tensorpipe" rfl (by decide)

end TorchRpc
